import Mathlib

/-!
CO2-Ampel: the device state machine of `src/main.cpp`.

A shallow embedding of the firmware's main loop, its button interrupt handler and its
helper routines.  The global variables of the sketch become the fields of `State`; one call
of `loop()` becomes the function `loop`, which takes the state, the value returned by
`millis()` and the values the external collaborators (sensor, Wi-Fi, database client) return
during that call, and gives the next state together with the list of calls made on the
collaborators, in program order.

`unsigned long` is 32 bits wide on the target, so clock values are naturals below `2 ^ 32`
and `a - b` on them is `(a + 2 ^ 32 - b) % 2 ^ 32`.
-/

namespace CO2Ampel

/-! ## Configuration constants (the `#define`s of the sketch) -/

def CO2_THRESHOLD_GOOD : Int := 500
def CO2_THRESHOLD_GOOD_MEDIUM : Int := 700
def CO2_THRESHOLD_MEDIUM : Int := 900
def CO2_THRESHOLD_MEDIUM_BAD : Int := 1100
def CO2_THRESHOLD_BAD : Int := 1500
def CO2_THRESHOLD_DEAD : Int := 2000

def NEOPIXEL_COUNT : Nat := 1

def CONF_WARMUP_TIME_MS : Nat := 180000
def CONF_ZERO_CALIBRATION_TIME_MS : Nat := 1260000
def CONF_MEASUREMENT_INTERVALL_MS : Nat := 300000

/-- The per-AP connect timeout `connectTimeout` handed to `wifiMulti.run`. -/
def connectTimeout : Nat := 10000

/-- The number of values of the 32-bit millisecond counter. -/
def CLOCK_PERIOD : Nat := 4294967296

/-- Unsigned 32-bit subtraction, the `-` of `unsigned long` operands. -/
def usub (a b : Nat) : Nat := (a + CLOCK_PERIOD - b % CLOCK_PERIOD) % CLOCK_PERIOD

/-- Modelled from the spec: the status "OK" of a sensor read (`RESULT_OK` in the sketch). The
constant belongs to the sensor library, which is not among the sources; 1 is the library's
value, and no general theorem below depends on it. -/
def RESULT_OK : Nat := 1

/-! ## Data model -/

/-- The `enum APPLICATION_MODE` of the sketch. -/
inductive APPLICATION_MODE
  | MODE_INITIALIZATION
  | MODE_ZERO_CALIBRATION
  | MODE_MEASUREMENT
  deriving DecidableEq, Repr

open APPLICATION_MODE

/-- A colour as passed to `neoPixels.Color(r, g, b)`. -/
structure Color where
  r : Nat
  g : Nat
  b : Nat
  deriving DecidableEq, Repr

/-- The global variables of the sketch that the main loop and the interrupt handler use. -/
structure State where
  sendZeroCalibrationCmd : Bool
  zeroCalibrationStartTimeMS : Nat
  initalCalibrationStartTimeMS : Nat
  wifiConnectionActive : Bool
  influxdbConnectionActive : Bool
  currentApplicationMode : APPLICATION_MODE
  deriving DecidableEq, Repr

/-- The globals as their initialisers leave them, with the value `setup()` stores in
`initalCalibrationStartTimeMS` on its last line; `zeroCalibrationStartTimeMS` has no
initialiser and starts at zero. -/
def bootState (setupEnd : Nat) : State :=
  { sendZeroCalibrationCmd := true
    zeroCalibrationStartTimeMS := 0
    initalCalibrationStartTimeMS := setupEnd
    wifiConnectionActive := false
    influxdbConnectionActive := false
    currentApplicationMode := MODE_INITIALIZATION }

/-- What the external collaborators return during one call of `loop()`, were they asked:
the sensor's CO2 value and temperature, the sensor object's `errorCode` after the two reads,
whether `wifiMulti.run(connectTimeout)` gives `WL_CONNECTED`, and the results of
`client.validateConnection()` and `client.writePoint(...)`. The temperature is a value the
loop only passes on. -/
structure Readings where
  co2Value : Int
  temperature : Int
  errorCode : Nat
  wifiConnected : Bool
  validateConnection : Bool
  writePoint : Bool
  deriving DecidableEq, Repr

/-- The calls one run of the code makes on its collaborators. `serial` stands for one
`Serial.print`, `println` or `printf` call: its text and the numbers it formats, a number
printed alone having the text `%d`, and a value obtained from a collaborator being named by
the expression that obtains it. `loadingAnimation elapsed total` stands for
`loadingAnimation(map(elapsed, 0, total, 0, 100))`. -/
inductive Effect
  | serial (text : String) (args : List Int)
  | setPixelColor (i : Nat) (color : Color)
  | pixelShow
  | delay (ms : Nat)
  | loadingAnimation (elapsed total : Nat)
  | calibrateZero
  | getCO2
  | getTemperature
  | clearFields
  | wifiRun (timeout : Nat)
  | validateConnection
  | addField (name : String) (value : Int)
  | writePoint
  deriving DecidableEq, Repr

open Effect

/-! ## The routines of the sketch -/

/-- The `colorWipe(color, wait)` routine: every pixel of the strip is set, shown and waited for. -/
def colorWipe (color : Color) (wait : Nat) : List Effect :=
  (List.range NEOPIXEL_COUNT).flatMap fun i => [setPixelColor i color, pixelShow, delay wait]

/-- The `detectZeroCalibrationButtonPush()` interrupt handler, run when `millis()` is `now`. -/
def detectZeroCalibrationButtonPush (s : State) (now : Nat) : State × List Effect :=
  ({ s with currentApplicationMode := MODE_ZERO_CALIBRATION
            zeroCalibrationStartTimeMS := now },
   [serial "DEBUG: Interrupt" []])

/-- The `checkSensorReturnCode()` routine, for the sensor object's current `errorCode`. -/
def checkSensorReturnCode (errorCode : Nat) : List Effect :=
  if errorCode ≠ RESULT_OK then
    [serial "FAILED TO READ SENSOR!" [], serial "Error code: %d\n\r" [(errorCode : Int)]]
      ++ (List.range 2).flatMap fun _ =>
        colorWipe ⟨0, 255, 255⟩ 50 ++ [delay 500] ++ colorWipe ⟨0, 0, 0⟩ 50 ++ [delay 500]
  else []

/-- The threshold chain of the sample cycle (the `if`/`else if` cascade on `co2Value`). -/
def renderBand (co2Value : Int) : List Effect :=
  if co2Value ≤ CO2_THRESHOLD_GOOD then
    colorWipe ⟨44, 186, 0⟩ 200
  else if co2Value > CO2_THRESHOLD_GOOD ∧ co2Value ≤ CO2_THRESHOLD_GOOD_MEDIUM then
    colorWipe ⟨163, 255, 0⟩ 200
  else if co2Value > CO2_THRESHOLD_GOOD_MEDIUM ∧ co2Value ≤ CO2_THRESHOLD_MEDIUM then
    colorWipe ⟨255, 244, 0⟩ 200
  else if co2Value > CO2_THRESHOLD_MEDIUM ∧ co2Value ≤ CO2_THRESHOLD_MEDIUM_BAD then
    colorWipe ⟨255, 167, 0⟩ 200
  else if co2Value > CO2_THRESHOLD_MEDIUM_BAD ∧ co2Value ≤ CO2_THRESHOLD_BAD then
    colorWipe ⟨255, 0, 0⟩ 200
  else if co2Value > CO2_THRESHOLD_BAD ∧ co2Value ≤ CO2_THRESHOLD_DEAD then
    colorWipe ⟨255, 0, 127⟩ 200
  else if co2Value > CO2_THRESHOLD_DEAD then
    colorWipe ⟨255, 0, 255⟩ 200
  else []

/-- The uplink part of the sample cycle: both probes, the flags they set, and the write. -/
def uplink (s : State) (r : Readings) : State × List Effect :=
  let wifiFx : List Effect :=
    if r.wifiConnected then
      [serial "Connected to wireless network '" [], serial "WiFi.SSID()" [],
       serial "' with IP: " [], serial "WiFi.localIP()" []]
    else [serial "Could not Connect to Wifi" []]
  let s1 := { s with wifiConnectionActive := r.wifiConnected }
  let dbFx : List Effect :=
    if r.validateConnection then
      [serial "Connected to InfluxDB: " [], serial "client.getServerUrl()" []]
    else [serial "InfluxDB connection failed: " [], serial "client.getLastErrorMessage()" []]
  let s2 := { s1 with influxdbConnectionActive := r.validateConnection }
  let writeFx : List Effect :=
    if s2.wifiConnectionActive ∧ s2.influxdbConnectionActive then
      [addField "co2" r.co2Value, addField "temperature" r.temperature, writePoint]
        ++ (if ¬ r.writePoint then
              [serial "InfluxDB write failed: " [], serial "client.getLastErrorMessage()" []]
            else [serial "Send OK" []])
    else []
  (s2, [wifiRun connectTimeout] ++ wifiFx ++ [Effect.validateConnection] ++ dbFx ++ writeFx)

/-- The body of `case MODE_INITIALIZATION`. -/
def loopInitialization (s : State) (now : Nat) : State × List Effect :=
  if usub now s.initalCalibrationStartTimeMS < CONF_WARMUP_TIME_MS then
    if now % 1000 = 0 then
      (s, [serial "Initial calibration in progress: " [],
           serial "%d" [(((usub now s.initalCalibrationStartTimeMS + 1000) % CLOCK_PERIOD / 1000 : Nat) : Int)],
           serial "/" [], serial "%d" [((CONF_WARMUP_TIME_MS / 1000 : Nat) : Int)], serial "s" [],
           loadingAnimation (usub now s.initalCalibrationStartTimeMS) CONF_WARMUP_TIME_MS,
           delay 10])
    else (s, [])
  else
    ({ s with currentApplicationMode := MODE_MEASUREMENT },
     [serial "Switch to measurement mode." []])

/-- The body of `case MODE_ZERO_CALIBRATION`. -/
def loopZeroCalibration (s : State) (now : Nat) : State × List Effect :=
  if usub now s.initalCalibrationStartTimeMS < CONF_WARMUP_TIME_MS then
    let sendFx : List Effect :=
      if s.sendZeroCalibrationCmd then
        colorWipe ⟨0, 0, 0⟩ 100 ++ [serial "Start zero calibration progress." [], calibrateZero]
      else []
    let s1 := if s.sendZeroCalibrationCmd then { s with sendZeroCalibrationCmd := false } else s
    let logFx : List Effect :=
      if now % 10000 = 0 then
        [serial "Zero calibration in progress: " [],
         serial "%d" [((usub now s1.zeroCalibrationStartTimeMS / 1000 : Nat) : Int)],
         serial "/" [], serial "%d" [((CONF_ZERO_CALIBRATION_TIME_MS / 1000 : Nat) : Int)],
         serial "s" [], delay 10]
      else []
    let animFx : List Effect :=
      if now % 1000 = 0 then
        [loadingAnimation (usub now s1.zeroCalibrationStartTimeMS) CONF_ZERO_CALIBRATION_TIME_MS]
      else []
    (s1, sendFx ++ logFx ++ animFx)
  else
    ({ s with currentApplicationMode := MODE_MEASUREMENT
              sendZeroCalibrationCmd := true },
     [serial "Switch to measurement mode." []])

/-- The body of `case MODE_MEASUREMENT` (also the `default` case). -/
def loopMeasurement (s : State) (now : Nat) (r : Readings) : State × List Effect :=
  if now % CONF_MEASUREMENT_INTERVALL_MS = 0 then
    if r.co2Value = 0 then
      (s, [getCO2, getTemperature])
    else
      let up := uplink s r
      (up.1,
       [getCO2, getTemperature, clearFields] ++ checkSensorReturnCode r.errorCode
         ++ [serial "CO2 [ppm]: %4i, Temperature [C]: %.1f\n\r" [r.co2Value, r.temperature]]
         ++ renderBand r.co2Value ++ up.2 ++ [delay 10])
  else (s, [])

/-- One call of `loop()` with `millis()` returning `now`. -/
def loop (s : State) (now : Nat) (r : Readings) : State × List Effect :=
  match s.currentApplicationMode with
  | MODE_INITIALIZATION => loopInitialization s now
  | MODE_ZERO_CALIBRATION => loopZeroCalibration s now
  | MODE_MEASUREMENT => loopMeasurement s now r

/-! ## Executions: loop iterations interleaved with button interrupts -/

/-- What happens next: one call of `loop()`, or a rising edge on the calibration pin, whose
handler runs to completion between two calls of `loop()`. -/
inductive Event
  | iteration (now : Nat) (r : Readings)
  | button (now : Nat)
  deriving DecidableEq, Repr

/-- The effect of one event on the globals, and the calls it makes. -/
def step (s : State) : Event → State × List Effect
  | Event.iteration now r => loop s now r
  | Event.button now => detectZeroCalibrationButtonPush s now

/-- The globals after a sequence of events. -/
def stateAfter (s : State) : List Event → State
  | [] => s
  | e :: es => stateAfter (step s e).1 es

/-- The calls made during a sequence of events, in order. -/
def traceOf (s : State) : List Event → List Effect
  | [] => []
  | e :: es => (step s e).2 ++ traceOf (step s e).1 es

/-! ## Observations on traces -/

/-- The colours handed to the pixel, in order. -/
def renderedColors (fx : List Effect) : List Color :=
  fx.filterMap fun e => match e with
    | setPixelColor _ c => some c
    | _ => none

/-- Is this call the sensor's zero-calibration command? -/
def isCalibrateZero : Effect → Bool
  | calibrateZero => true
  | _ => false

/-- Is this call the database write? -/
def isWritePoint : Effect → Bool
  | writePoint => true
  | _ => false

/-- Is this a call on the sensor gateway? -/
def isSensorCall : Effect → Bool
  | calibrateZero => true
  | getCO2 => true
  | getTemperature => true
  | _ => false

/-- Is this a call on the indicator renderer? -/
def isRendererCall : Effect → Bool
  | setPixelColor _ _ => true
  | pixelShow => true
  | loadingAnimation _ _ => true
  | _ => false

/-- Is this a call on the network uplink (Wi-Fi manager or database client)? -/
def isNetworkCall : Effect → Bool
  | wifiRun _ => true
  | Effect.validateConnection => true
  | clearFields => true
  | addField _ _ => true
  | writePoint => true
  | _ => false

/-- The number of zero-calibration commands sent in a trace. -/
def zeroCommandsSent (fx : List Effect) : Nat := fx.countP isCalibrateZero

/-- The number of database writes attempted in a trace. -/
def publishAttempts (fx : List Effect) : Nat := fx.countP isWritePoint

/-- Does the event, taken in state `s`, send the zero-calibration command? -/
def sendsZero (s : State) (e : Event) : Bool := (step s e).2.any isCalibrateZero

/-- Is the event a loop iteration that finds the device in ZeroCalibration and leaves it in
Measurement? -/
def leavesZeroCalibration (s : State) : Event → Bool
  | Event.iteration now r =>
      decide (s.currentApplicationMode = MODE_ZERO_CALIBRATION)
        && decide ((loop s now r).1.currentApplicationMode = MODE_MEASUREMENT)
  | Event.button _ => false

/-- Is this call the sensor's CO2 read, the first call of every sample cycle? -/
def isGetCO2 : Effect → Bool
  | getCO2 => true
  | _ => false

/-- The number of sample cycles started in a trace. -/
def sampleCycles (fx : List Effect) : Nat := fx.countP isGetCO2

/-- The counter value seen by the `i`-th loop iteration after the one that saw `w`, when the
loop sees every value of the wrapping counter once. -/
def clockAt (w i : Nat) : Nat := (w + i) % CLOCK_PERIOD

/-- The loop iterations of `n` consecutive milliseconds from counter value `w` on, with the
readings `env i` available to the `i`-th of them. -/
def window (env : Nat → Readings) (w n : Nat) : List Event :=
  (List.range n).map fun i => Event.iteration (clockAt w i) (env i)

/-- A cycle without faults: the sensor read succeeds and both uplink probes succeed. -/
def noFault (r : Readings) : Prop :=
  r.co2Value ≠ 0 ∧ r.wifiConnected = true ∧ r.validateConnection = true

/-- Readings of a steady fault-free run: 450 ppm, sensor status `RESULT_OK`, both uplink
probes and the write succeeding. -/
def steadyReadings : Readings := ⟨450, 21, 1, true, true, true⟩

/-- The number of the `n` milliseconds from `w` on whose counter value is a multiple of the
sample interval. -/
def boundariesIn (w n : Nat) : Nat :=
  (List.range n).countP fun i => decide (clockAt w i % CONF_MEASUREMENT_INTERVALL_MS = 0)

/-! ## The colour table of the specification -/

/-- The seven bands of the specification, in their order. -/
inductive Band
  | Excellent | Good | Fair | Mediocre | Poor | Bad | Critical
  deriving DecidableEq, Repr

/-- The position of a band in the order Excellent < Good < ... < Critical. -/
def Band.rank : Band → Nat
  | Band.Excellent => 0
  | Band.Good => 1
  | Band.Fair => 2
  | Band.Mediocre => 3
  | Band.Poor => 4
  | Band.Bad => 5
  | Band.Critical => 6

/-- The colour the specification's table gives each band. -/
def Band.color : Band → Color
  | Band.Excellent => ⟨44, 186, 0⟩
  | Band.Good => ⟨163, 255, 0⟩
  | Band.Fair => ⟨255, 244, 0⟩
  | Band.Mediocre => ⟨255, 167, 0⟩
  | Band.Poor => ⟨255, 0, 0⟩
  | Band.Bad => ⟨255, 0, 127⟩
  | Band.Critical => ⟨255, 0, 255⟩

/-- The band a colour identifies, if it is one of the seven band colours. -/
def Band.ofColor (c : Color) : Option Band :=
  [Band.Excellent, Band.Good, Band.Fair, Band.Mediocre, Band.Poor, Band.Bad, Band.Critical].find?
    fun b => decide (b.color = c)

/-- The specification's table (section 4.7), read row by row: the band of a ppm value. -/
def tableBand (ppm : Int) : Band :=
  if ppm ≤ 500 then Band.Excellent
  else if 501 ≤ ppm ∧ ppm ≤ 700 then Band.Good
  else if 701 ≤ ppm ∧ ppm ≤ 900 then Band.Fair
  else if 901 ≤ ppm ∧ ppm ≤ 1100 then Band.Mediocre
  else if 1101 ≤ ppm ∧ ppm ≤ 1500 then Band.Poor
  else if 1501 ≤ ppm ∧ ppm ≤ 2000 then Band.Bad
  else Band.Critical

/-- The band selected by the threshold chain of the code: the band identified by the first
colour the chain renders. -/
def selectedBand (co2Value : Int) : Option Band :=
  (renderedColors (renderBand co2Value)).head?.bind Band.ofColor

/-! ## Shared lemmas -/

theorem colorWipe_eq (c : Color) (wait : Nat) :
    colorWipe c wait = [setPixelColor 0 c, pixelShow, delay wait] := by
  rfl

theorem usub_add_mod (start e : Nat) (hs : start < CLOCK_PERIOD) (he : e < CLOCK_PERIOD) :
    usub ((start + e) % CLOCK_PERIOD) start = e := by
  unfold usub CLOCK_PERIOD at *
  omega

theorem renderBand_eq_table (c : Int) :
    renderBand c = colorWipe (tableBand c).color 200 := by
  unfold renderBand tableBand CO2_THRESHOLD_GOOD CO2_THRESHOLD_GOOD_MEDIUM CO2_THRESHOLD_MEDIUM
    CO2_THRESHOLD_MEDIUM_BAD CO2_THRESHOLD_BAD CO2_THRESHOLD_DEAD
  split_ifs <;> first | rfl | omega

theorem renderedColors_colorWipe (c : Color) (wait : Nat) :
    renderedColors (colorWipe c wait) = [c] := rfl

theorem selectedBand_eq_table (c : Int) : selectedBand c = some (tableBand c) := by
  unfold selectedBand
  rw [renderBand_eq_table, renderedColors_colorWipe]
  cases tableBand c <;> rfl

theorem tableBand_rank_mono (a b : Int) (hab : a < b) :
    (tableBand a).rank ≤ (tableBand b).rank := by
  unfold tableBand
  split_ifs <;> simp only [Band.rank] <;> omega

theorem any_isWritePoint_uplink (s : State) (r : Readings) :
    (uplink s r).2.any isWritePoint = (r.wifiConnected && r.validateConnection) := by
  unfold uplink
  cases r.wifiConnected <;> cases r.validateConnection <;> cases r.writePoint <;> rfl

theorem publishAttempts_uplink (s : State) (r : Readings) :
    publishAttempts (uplink s r).2 = if r.wifiConnected && r.validateConnection then 1 else 0 := by
  unfold uplink
  cases r.wifiConnected <;> cases r.validateConnection <;> cases r.writePoint <;> rfl

theorem any_isWritePoint_checkSensorReturnCode (errorCode : Nat) :
    (checkSensorReturnCode errorCode).any isWritePoint = false := by
  unfold checkSensorReturnCode
  split <;> rfl

theorem publishAttempts_checkSensorReturnCode (errorCode : Nat) :
    publishAttempts (checkSensorReturnCode errorCode) = 0 := by
  unfold checkSensorReturnCode
  split <;> rfl

theorem any_isWritePoint_renderBand (c : Int) : (renderBand c).any isWritePoint = false := by
  rw [renderBand_eq_table]; rfl

theorem publishAttempts_renderBand (c : Int) : publishAttempts (renderBand c) = 0 := by
  rw [renderBand_eq_table]; rfl

theorem publishAttempts_append (xs ys : List Effect) :
    publishAttempts (xs ++ ys) = publishAttempts xs + publishAttempts ys := by
  simp [publishAttempts, List.countP_append]

/-- The database writes of one iteration in Measurement mode: one when the clock value is a
multiple of the sample interval, the reading is non-zero and both probes succeed, else none. -/
theorem publishAttempts_loopMeasurement (s : State) (now : Nat) (r : Readings) :
    publishAttempts (loopMeasurement s now r).2
      = if now % CONF_MEASUREMENT_INTERVALL_MS = 0 ∧ r.co2Value ≠ 0
            ∧ r.wifiConnected = true ∧ r.validateConnection = true then 1 else 0 := by
  unfold loopMeasurement
  by_cases htick : now % CONF_MEASUREMENT_INTERVALL_MS = 0
  · by_cases hz : r.co2Value = 0
    · simp [htick, hz, publishAttempts, isWritePoint]
    · simp only [htick, hz, if_true, if_false, publishAttempts_append,
        publishAttempts_checkSensorReturnCode, publishAttempts_renderBand,
        publishAttempts_uplink]
      cases r.wifiConnected <;> cases r.validateConnection <;>
        simp [publishAttempts, isWritePoint, hz]
  · simp [htick, publishAttempts]

theorem any_isCalibrateZero_loopInitialization (s : State) (now : Nat) :
    (loopInitialization s now).2.any isCalibrateZero = false := by
  unfold loopInitialization
  split_ifs <;> rfl

theorem any_isCalibrateZero_loopMeasurement (s : State) (now : Nat) (r : Readings) :
    (loopMeasurement s now r).2.any isCalibrateZero = false := by
  have hcheck : (checkSensorReturnCode r.errorCode).any isCalibrateZero = false := by
    unfold checkSensorReturnCode
    split <;> rfl
  have hband : (renderBand r.co2Value).any isCalibrateZero = false := by
    rw [renderBand_eq_table]; rfl
  have hup : (uplink s r).2.any isCalibrateZero = false := by
    unfold uplink
    cases r.wifiConnected <;> cases r.validateConnection <;> cases r.writePoint <;> rfl
  unfold loopMeasurement
  split_ifs
  · rfl
  · simp only [List.any_append, hcheck, hband, hup]
    rfl
  · rfl

/-- The zero-calibration command is sent by an iteration exactly when the device is in
ZeroCalibration, the exit test keeps it there, and the send latch is armed. -/
theorem any_isCalibrateZero_loopZeroCalibration (s : State) (now : Nat) :
    (loopZeroCalibration s now).2.any isCalibrateZero
      = (decide (usub now s.initalCalibrationStartTimeMS < CONF_WARMUP_TIME_MS)
          && s.sendZeroCalibrationCmd) := by
  unfold loopZeroCalibration
  by_cases hw : usub now s.initalCalibrationStartTimeMS < CONF_WARMUP_TIME_MS
  · cases hl : s.sendZeroCalibrationCmd <;>
      simp only [hw, hl, if_true, Bool.false_eq_true, if_false, colorWipe_eq] <;>
      split_ifs <;> simp [isCalibrateZero]
  · simp [hw, isCalibrateZero]

/-- An event that sends the zero-calibration command finds the latch armed and disarms it. -/
theorem sendsZero_disarms (s : State) (e : Event) (h : sendsZero s e = true) :
    s.sendZeroCalibrationCmd = true ∧ (step s e).1.sendZeroCalibrationCmd = false := by
  cases e with
  | button now => simp [sendsZero, step, detectZeroCalibrationButtonPush, isCalibrateZero] at h
  | iteration now r =>
    unfold sendsZero step loop at h
    unfold step loop
    cases hm : s.currentApplicationMode <;> simp only [hm] at h ⊢
    · rw [any_isCalibrateZero_loopInitialization] at h
      exact absurd h (by decide)
    · rw [any_isCalibrateZero_loopZeroCalibration] at h
      simp only [Bool.and_eq_true, decide_eq_true_eq] at h
      obtain ⟨hw, hl⟩ := h
      refine ⟨hl, ?_⟩
      simp [loopZeroCalibration, hw, hl]
    · rw [any_isCalibrateZero_loopMeasurement] at h
      exact absurd h (by decide)

/-- The only event that arms a disarmed latch is a loop iteration leaving ZeroCalibration for
Measurement. -/
theorem rearm_only_on_leaving (s : State) (e : Event)
    (hoff : s.sendZeroCalibrationCmd = false)
    (hon : (step s e).1.sendZeroCalibrationCmd = true) :
    leavesZeroCalibration s e = true := by
  cases e with
  | button now =>
    simp [step, detectZeroCalibrationButtonPush, hoff] at hon
  | iteration now r =>
    unfold step loop at hon
    unfold leavesZeroCalibration loop
    cases hm : s.currentApplicationMode <;> simp only [hm] at hon ⊢
    · unfold loopInitialization at hon
      split_ifs at hon <;> simp [hoff] at hon
    · unfold loopZeroCalibration at hon ⊢
      by_cases hw : usub now s.initalCalibrationStartTimeMS < CONF_WARMUP_TIME_MS
      · simp [hw, hoff] at hon
      · simp [hw]
    · unfold loopMeasurement uplink at hon
      split_ifs at hon <;> simp [hoff] at hon

theorem stateAfter_append (s : State) (xs ys : List Event) :
    stateAfter s (xs ++ ys) = stateAfter (stateAfter s xs) ys := by
  induction xs generalizing s with
  | nil => rfl
  | cons x xs ih => simp [stateAfter, ih]

/-- From a state with the latch disarmed, a later send is preceded by a leaving iteration. -/
theorem send_after_disarmed (mid : List Event) (s : State) (e2 : Event)
    (hoff : s.sendZeroCalibrationCmd = false)
    (h2 : sendsZero (stateAfter s mid) e2 = true) :
    ∃ mid1 e mid2, mid = mid1 ++ e :: mid2
      ∧ leavesZeroCalibration (stateAfter s mid1) e = true := by
  induction mid generalizing s with
  | nil =>
    have := (sendsZero_disarms s e2 h2).1
    rw [hoff] at this
    exact absurd this (by decide)
  | cons x xs ih =>
    cases hx : (step s x).1.sendZeroCalibrationCmd with
    | true => exact ⟨[], x, xs, rfl, rearm_only_on_leaving s x hoff hx⟩
    | false =>
      obtain ⟨m1, e, m2, hsplit, hleave⟩ := ih (step s x).1 hx h2
      exact ⟨x :: m1, e, m2, by rw [hsplit]; rfl, hleave⟩

theorem sampleCycles_append (xs ys : List Effect) :
    sampleCycles (xs ++ ys) = sampleCycles xs + sampleCycles ys := by
  simp [sampleCycles, List.countP_append]

/-- The sample cycles of one iteration in Measurement mode: one when the clock value is a
multiple of the sample interval, else none. -/
theorem sampleCycles_loopMeasurement (s : State) (now : Nat) (r : Readings) :
    sampleCycles (loopMeasurement s now r).2
      = if now % CONF_MEASUREMENT_INTERVALL_MS = 0 then 1 else 0 := by
  have hcheck : sampleCycles (checkSensorReturnCode r.errorCode) = 0 := by
    unfold checkSensorReturnCode
    split <;> rfl
  have hband : sampleCycles (renderBand r.co2Value) = 0 := by
    rw [renderBand_eq_table]; rfl
  have hup : sampleCycles (uplink s r).2 = 0 := by
    unfold uplink
    cases r.wifiConnected <;> cases r.validateConnection <;> cases r.writePoint <;> rfl
  unfold loopMeasurement
  by_cases htick : now % CONF_MEASUREMENT_INTERVALL_MS = 0
  · by_cases hz : r.co2Value = 0
    · simp [htick, hz, sampleCycles, isGetCO2]
    · simp only [htick, hz, if_true, if_false, sampleCycles_append, hcheck, hband, hup]
      simp [sampleCycles, isGetCO2]
  · simp [htick, sampleCycles]

theorem loopMeasurement_mode (s : State) (now : Nat) (r : Readings) :
    (loopMeasurement s now r).1.currentApplicationMode = s.currentApplicationMode := by
  unfold loopMeasurement uplink
  split_ifs <;> rfl

theorem traceOf_append (s : State) (xs ys : List Event) :
    traceOf s (xs ++ ys) = traceOf s xs ++ traceOf (stateAfter s xs) ys := by
  induction xs generalizing s with
  | nil => rfl
  | cons x xs ih => simp [traceOf, stateAfter, ih]

theorem window_succ (env : Nat → Readings) (w n : Nat) :
    window env w (n + 1) = window env w n ++ [Event.iteration (clockAt w n) (env n)] := by
  simp [window, List.range_succ]

theorem stateAfter_window_mode (s : State) (env : Nat → Readings) (w n : Nat)
    (hmode : s.currentApplicationMode = MODE_MEASUREMENT) :
    (stateAfter s (window env w n)).currentApplicationMode = MODE_MEASUREMENT := by
  induction n with
  | zero => exact hmode
  | succ n ih =>
    rw [window_succ, stateAfter_append]
    simp only [stateAfter, step, loop, ih]
    rw [loopMeasurement_mode]
    exact ih

theorem boundariesIn_succ (w n : Nat) :
    boundariesIn w (n + 1)
      = boundariesIn w n + if clockAt w n % CONF_MEASUREMENT_INTERVALL_MS = 0 then 1 else 0 := by
  simp [boundariesIn, List.range_succ, List.countP_append, List.countP_cons]

/-- In Measurement mode the sample cycles of a run of consecutive iterations are one per
counter value that is a multiple of the sample interval. -/
theorem sampleCycles_window (s : State) (env : Nat → Readings) (w n : Nat)
    (hmode : s.currentApplicationMode = MODE_MEASUREMENT) :
    sampleCycles (traceOf s (window env w n)) = boundariesIn w n := by
  induction n with
  | zero => rfl
  | succ n ih =>
    have hm := stateAfter_window_mode s env w n hmode
    rw [window_succ, traceOf_append, sampleCycles_append, ih, boundariesIn_succ]
    simp only [traceOf, step, loop, hm, List.append_nil]
    rw [sampleCycles_loopMeasurement]

/-- In Measurement mode without faults the publish attempts of a run of consecutive
iterations are one per counter value that is a multiple of the sample interval. -/
theorem publishAttempts_window (s : State) (env : Nat → Readings) (w n : Nat)
    (hmode : s.currentApplicationMode = MODE_MEASUREMENT) (henv : ∀ i, noFault (env i)) :
    publishAttempts (traceOf s (window env w n)) = boundariesIn w n := by
  induction n with
  | zero => rfl
  | succ n ih =>
    have hm := stateAfter_window_mode s env w n hmode
    obtain ⟨h1, h2, h3⟩ := henv n
    rw [window_succ, traceOf_append, publishAttempts_append, ih, boundariesIn_succ]
    simp only [traceOf, step, loop, hm, List.append_nil]
    rw [publishAttempts_loopMeasurement]
    simp [h1, h2, h3]

theorem noFault_steadyReadings : noFault steadyReadings := ⟨by decide, rfl, rfl⟩

/-- Counting over a range is the size of the filtered finite range. -/
theorem boundariesIn_eq_card (w n : Nat) :
    boundariesIn w n
      = ((Finset.range n).filter
          fun i => clockAt w i % CONF_MEASUREMENT_INTERVALL_MS = 0).card := by
  unfold boundariesIn
  rw [List.countP_eq_length_filter,
    ← List.toFinset_card_of_nodup (List.Nodup.filter _ (List.nodup_range n))]
  congr 1
  ext i
  simp

/-- The counter value of an iteration, before and after the wrap. -/
theorem clockAt_cases (w i : Nat) (hw : w < CLOCK_PERIOD) (hi : i < CLOCK_PERIOD) :
    (w + i < CLOCK_PERIOD ∧ clockAt w i = w + i)
    ∨ (CLOCK_PERIOD ≤ w + i ∧ clockAt w i = w + i - CLOCK_PERIOD) := by
  unfold clockAt CLOCK_PERIOD at *
  omega

/-- The boundaries of a window of one sample interval are among two offsets: the distance to
the next multiple of the interval, and the distance to the wrap. -/
theorem boundary_offsets (w i : Nat) (hw : w < CLOCK_PERIOD)
    (hi : i < CONF_MEASUREMENT_INTERVALL_MS)
    (hb : clockAt w i % CONF_MEASUREMENT_INTERVALL_MS = 0) :
    i = (CONF_MEASUREMENT_INTERVALL_MS - w % CONF_MEASUREMENT_INTERVALL_MS)
          % CONF_MEASUREMENT_INTERVALL_MS
    ∨ i = CLOCK_PERIOD - w := by
  have hi2 : i < CLOCK_PERIOD := by
    unfold CONF_MEASUREMENT_INTERVALL_MS at hi
    unfold CLOCK_PERIOD
    omega
  rcases clockAt_cases w i hw hi2 with ⟨h1, h2⟩ | ⟨h1, h2⟩ <;> rw [h2] at hb <;>
    unfold CONF_MEASUREMENT_INTERVALL_MS CLOCK_PERIOD at * <;> omega

/-- The offset of the next multiple of the interval is a boundary when the window does not
reach the wrap before it. -/
theorem next_multiple_is_boundary (w : Nat)
    (hw : w + CONF_MEASUREMENT_INTERVALL_MS ≤ CLOCK_PERIOD) :
    clockAt w ((CONF_MEASUREMENT_INTERVALL_MS - w % CONF_MEASUREMENT_INTERVALL_MS)
      % CONF_MEASUREMENT_INTERVALL_MS) % CONF_MEASUREMENT_INTERVALL_MS = 0 := by
  have hlt : w + (CONF_MEASUREMENT_INTERVALL_MS - w % CONF_MEASUREMENT_INTERVALL_MS)
      % CONF_MEASUREMENT_INTERVALL_MS < CLOCK_PERIOD := by
    unfold CONF_MEASUREMENT_INTERVALL_MS CLOCK_PERIOD at *
    omega
  unfold clockAt
  rw [Nat.mod_eq_of_lt hlt]
  unfold CONF_MEASUREMENT_INTERVALL_MS
  omega

/-- The offset of the wrap is a boundary: the counter value there is 0. -/
theorem wrap_is_boundary (w : Nat) (hw : w < CLOCK_PERIOD) :
    clockAt w (CLOCK_PERIOD - w) % CONF_MEASUREMENT_INTERVALL_MS = 0 := by
  have h0 : clockAt w (CLOCK_PERIOD - w) = 0 := by
    unfold clockAt CLOCK_PERIOD at *
    omega
  rw [h0]
  rfl

/-- A window of one sample interval that does not reach the wrap holds one boundary. -/
theorem boundariesIn_no_wrap (w : Nat)
    (hw : w + CONF_MEASUREMENT_INTERVALL_MS ≤ CLOCK_PERIOD) :
    boundariesIn w CONF_MEASUREMENT_INTERVALL_MS = 1 := by
  have hw2 : w < CLOCK_PERIOD := by
    unfold CONF_MEASUREMENT_INTERVALL_MS at hw
    omega
  rw [boundariesIn_eq_card, Finset.card_eq_one]
  refine ⟨(CONF_MEASUREMENT_INTERVALL_MS - w % CONF_MEASUREMENT_INTERVALL_MS)
    % CONF_MEASUREMENT_INTERVALL_MS, ?_⟩
  ext i
  simp only [Finset.mem_filter, Finset.mem_range, Finset.mem_singleton]
  constructor
  · rintro ⟨hi, hb⟩
    rcases boundary_offsets w i hw2 hi hb with h | h
    · exact h
    · omega
  · intro h
    rw [h]
    exact ⟨Nat.mod_lt _ (by decide), next_multiple_is_boundary w hw⟩

/-- Every window of one sample interval holds at least one boundary and at most two. -/
theorem boundariesIn_bounds (w : Nat) (hw : w < CLOCK_PERIOD) :
    1 ≤ boundariesIn w CONF_MEASUREMENT_INTERVALL_MS
    ∧ boundariesIn w CONF_MEASUREMENT_INTERVALL_MS ≤ 2 := by
  rw [boundariesIn_eq_card]
  constructor
  · rw [Nat.succ_le_iff, Finset.card_pos]
    by_cases hwrap : w + CONF_MEASUREMENT_INTERVALL_MS ≤ CLOCK_PERIOD
    · refine ⟨(CONF_MEASUREMENT_INTERVALL_MS - w % CONF_MEASUREMENT_INTERVALL_MS)
        % CONF_MEASUREMENT_INTERVALL_MS, ?_⟩
      simp only [Finset.mem_filter, Finset.mem_range]
      exact ⟨Nat.mod_lt _ (by decide), next_multiple_is_boundary w hwrap⟩
    · refine ⟨CLOCK_PERIOD - w, ?_⟩
      simp only [Finset.mem_filter, Finset.mem_range]
      exact ⟨by omega, wrap_is_boundary w hw⟩
  · refine le_trans (Finset.card_le_card (t := {(CONF_MEASUREMENT_INTERVALL_MS
        - w % CONF_MEASUREMENT_INTERVALL_MS) % CONF_MEASUREMENT_INTERVALL_MS,
        CLOCK_PERIOD - w}) ?_) Finset.card_le_two
    intro i hi
    simp only [Finset.mem_filter, Finset.mem_range] at hi
    simp only [Finset.mem_insert, Finset.mem_singleton]
    exact boundary_offsets w i hw hi.1 hi.2

/-- The window that starts at the last boundary before the wrap holds two boundaries: its
own first millisecond and the counter value 0, 167 296 ms later. -/
theorem boundariesIn_at_wrap : boundariesIn 4294800000 CONF_MEASUREMENT_INTERVALL_MS = 2 := by
  rw [boundariesIn_eq_card]
  have hset : ((Finset.range CONF_MEASUREMENT_INTERVALL_MS).filter
      fun i => clockAt 4294800000 i % CONF_MEASUREMENT_INTERVALL_MS = 0) = {0, 167296} := by
    ext i
    simp only [Finset.mem_filter, Finset.mem_range, Finset.mem_insert, Finset.mem_singleton]
    constructor
    · rintro ⟨hi, hb⟩
      rcases boundary_offsets 4294800000 i (by decide) hi hb with h | h
      · left; rw [h]; decide
      · right; rw [h]; decide
    · rintro (h | h) <;> rw [h] <;> decide
  rw [hset]
  rfl

/-! ## The button interrupt handler -/

/-- C10: from every state and clock value the button interrupt handler sets the mode to
ZeroCalibration and `zeroCalibrationStartTimeMS` to `now`, leaves the send latch, the
initialization timer and both uplink flags as they were, and calls neither the sensor, the
renderer nor the network. -/
theorem button_handler_frame (s : State) (now : Nat) :
    (detectZeroCalibrationButtonPush s now).1.currentApplicationMode = MODE_ZERO_CALIBRATION
    ∧ (detectZeroCalibrationButtonPush s now).1.zeroCalibrationStartTimeMS = now
    ∧ (detectZeroCalibrationButtonPush s now).1.sendZeroCalibrationCmd = s.sendZeroCalibrationCmd
    ∧ (detectZeroCalibrationButtonPush s now).1.initalCalibrationStartTimeMS
        = s.initalCalibrationStartTimeMS
    ∧ (detectZeroCalibrationButtonPush s now).1.wifiConnectionActive = s.wifiConnectionActive
    ∧ (detectZeroCalibrationButtonPush s now).1.influxdbConnectionActive
        = s.influxdbConnectionActive
    ∧ ∀ e ∈ (detectZeroCalibrationButtonPush s now).2,
        isSensorCall e = false ∧ isRendererCall e = false ∧ isNetworkCall e = false := by
  simp [detectZeroCalibrationButtonPush, isSensorCall, isRendererCall, isNetworkCall]

/-! ## Initialization -/

/-- C6: with `now = (start + e) mod 2^32` for a true elapsed time `e < 2^32`, one loop
iteration in Initialization mode keeps the mode when `e < CONF_WARMUP_TIME_MS` and sets it
to Measurement otherwise, also when the counter has wrapped since `start`. -/
theorem initialization_exit_across_wrap (s : State) (e : Nat) (r : Readings)
    (hmode : s.currentApplicationMode = MODE_INITIALIZATION)
    (hstart : s.initalCalibrationStartTimeMS < CLOCK_PERIOD) (he : e < CLOCK_PERIOD) :
    (e < CONF_WARMUP_TIME_MS →
      (loop s ((s.initalCalibrationStartTimeMS + e) % CLOCK_PERIOD) r).1.currentApplicationMode
        = MODE_INITIALIZATION)
    ∧ (CONF_WARMUP_TIME_MS ≤ e →
      (loop s ((s.initalCalibrationStartTimeMS + e) % CLOCK_PERIOD) r).1.currentApplicationMode
        = MODE_MEASUREMENT) := by
  have hu := usub_add_mod s.initalCalibrationStartTimeMS e hstart he
  constructor
  · intro hlt
    simp only [loop, hmode, loopInitialization, hu, hlt, if_true]
    split <;> exact hmode
  · intro hge
    have hnlt : ¬ e < CONF_WARMUP_TIME_MS := Nat.not_lt.mpr hge
    simp [loop, hmode, loopInitialization, hu, hnlt]

/-- C6 at a start value 67 296 ms before the wrap and 100 000 ms of elapsed time: the clock
has wrapped to 32 704 and the device is still in Initialization. -/
theorem initialization_exit_across_wrap_witness :
    (bootState 4294900000).currentApplicationMode = MODE_INITIALIZATION
    ∧ (4294900000 + 100000) % CLOCK_PERIOD = 32704
    ∧ (loop (bootState 4294900000) ((4294900000 + 100000) % CLOCK_PERIOD)
          ⟨450, 21, 1, true, true, true⟩).1.currentApplicationMode = MODE_INITIALIZATION :=
  ⟨rfl, by decide,
    (initialization_exit_across_wrap (bootState 4294900000) 100000 ⟨450, 21, 1, true, true, true⟩
      rfl (by decide) (by decide)).1 (by decide)⟩

/-! ## ZeroCalibration -/

/-- C2, the code at a state the device reaches by a button press 600 s after boot: one
millisecond into the dwell (far below `CONF_ZERO_CALIBRATION_TIME_MS`) the loop iteration
already leaves ZeroCalibration for Measurement, because the exit test reads the
initialization timer and the warm-up constant. -/
theorem zero_calibration_exit_ignores_dwell :
    usub 600001 600000 < CONF_ZERO_CALIBRATION_TIME_MS
    ∧ ¬ usub 600001 0 < CONF_WARMUP_TIME_MS
    ∧ loop ⟨true, 600000, 0, false, false, MODE_ZERO_CALIBRATION⟩ 600001
          ⟨450, 21, 1, true, true, true⟩
        = (⟨true, 600000, 0, false, false, MODE_MEASUREMENT⟩,
           [serial "Switch to measurement mode." []]) := by
  refine ⟨by decide, by decide, ?_⟩
  rfl

/-- C3, the code on the scenario: boot at clock value 0, warm-up over at 180 s, button press
at 600 s, next loop iteration. The device is back in Measurement and the zero-calibration
command was sent zero times. -/
theorem button_after_warmup_sends_nothing :
    (stateAfter (bootState 0) [Event.iteration 180000 ⟨450, 21, 1, true, true, true⟩]).currentApplicationMode
        = MODE_MEASUREMENT
    ∧ (stateAfter (bootState 0)
        [Event.iteration 180000 ⟨450, 21, 1, true, true, true⟩,
         Event.button 600000]).currentApplicationMode = MODE_ZERO_CALIBRATION
    ∧ (stateAfter (bootState 0)
        [Event.iteration 180000 ⟨450, 21, 1, true, true, true⟩,
         Event.button 600000,
         Event.iteration 600000 ⟨450, 21, 1, true, true, true⟩]).currentApplicationMode
        = MODE_MEASUREMENT
    ∧ zeroCommandsSent (traceOf (bootState 0)
        [Event.iteration 180000 ⟨450, 21, 1, true, true, true⟩,
         Event.button 600000,
         Event.iteration 600000 ⟨450, 21, 1, true, true, true⟩]) = 0 := by
  refine ⟨rfl, rfl, rfl, rfl⟩

/-! ## The sample cycle -/

/-- C4, the code on a failed read: in Measurement mode at a sample boundary, with the sensor
returning `co2 = 0` and an error code other than `RESULT_OK`, the iteration only reads the
sensor and stops; nothing is rendered, so no cyan flash is shown. -/
theorem failed_read_shows_no_flash :
    (2 : Nat) ≠ RESULT_OK
    ∧ loop ⟨true, 0, 0, false, false, MODE_MEASUREMENT⟩ 300000 ⟨0, 0, 2, true, true, true⟩
        = (⟨true, 0, 0, false, false, MODE_MEASUREMENT⟩, [getCO2, getTemperature])
    ∧ renderedColors (loop ⟨true, 0, 0, false, false, MODE_MEASUREMENT⟩ 300000
        ⟨0, 0, 2, true, true, true⟩).2 = [] := by
  refine ⟨by decide, rfl, rfl⟩

/-- C9: band monotonicity. For readings `a < b` (the non-zero ones among them) the threshold
chain selects a band for each, and the band of `a` is not above the band of `b` in the order
Excellent < Good < Fair < Mediocre < Poor < Bad < Critical. -/
theorem band_monotone (a b : Int) (hab : a < b) :
    ∃ x y, selectedBand a = some x ∧ selectedBand b = some y ∧ x.rank ≤ y.rank :=
  ⟨tableBand a, tableBand b, selectedBand_eq_table a, selectedBand_eq_table b,
    tableBand_rank_mono a b hab⟩

/-- C9 at the readings 700 and 701: Good, then Fair. -/
theorem band_monotone_witness :
    selectedBand 700 = some Band.Good ∧ selectedBand 701 = some Band.Fair
    ∧ ∃ x y, selectedBand 700 = some x ∧ selectedBand 701 = some y ∧ x.rank ≤ y.rank :=
  ⟨rfl, rfl, band_monotone 700 701 (by decide)⟩

/-- C5: in a sample cycle the database write is invoked exactly when the reading is non-zero
and both probes of that cycle succeed; the uplink flags then hold the probe results; a zero
reading gives neither a render nor a write; and a write is only ever made with both flags
set. -/
theorem publish_iff_reading_and_uplinks (s : State) (now : Nat) (r : Readings)
    (hmode : s.currentApplicationMode = MODE_MEASUREMENT)
    (htick : now % CONF_MEASUREMENT_INTERVALL_MS = 0) :
    ((loop s now r).2.any isWritePoint = true
        ↔ r.co2Value ≠ 0 ∧ r.wifiConnected = true ∧ r.validateConnection = true)
    ∧ (r.co2Value ≠ 0 →
        (loop s now r).1.wifiConnectionActive = r.wifiConnected
        ∧ (loop s now r).1.influxdbConnectionActive = r.validateConnection)
    ∧ (r.co2Value = 0 →
        renderedColors (loop s now r).2 = [] ∧ (loop s now r).2.any isWritePoint = false)
    ∧ ((loop s now r).2.any isWritePoint = true →
        (loop s now r).1.wifiConnectionActive = true
        ∧ (loop s now r).1.influxdbConnectionActive = true)
    ∧ publishAttempts (loop s now r).2 ≤ 1 := by
  have hflags : r.co2Value ≠ 0 →
      (loop s now r).1.wifiConnectionActive = r.wifiConnected
      ∧ (loop s now r).1.influxdbConnectionActive = r.validateConnection := by
    intro hne
    simp [loop, hmode, loopMeasurement, htick, hne, uplink]
  have hiff : (loop s now r).2.any isWritePoint = true
      ↔ r.co2Value ≠ 0 ∧ r.wifiConnected = true ∧ r.validateConnection = true := by
    by_cases hz : r.co2Value = 0
    · simp [loop, hmode, loopMeasurement, htick, hz, isWritePoint]
    · simp only [loop, hmode, loopMeasurement, htick, hz, if_true, if_false, List.any_append,
        any_isWritePoint_checkSensorReturnCode, any_isWritePoint_renderBand,
        any_isWritePoint_uplink]
      simp [isWritePoint, hz]
  refine ⟨hiff, hflags, ?_, ?_, ?_⟩
  · intro hz
    simp [loop, hmode, loopMeasurement, htick, hz, isWritePoint, renderedColors]
  · intro hw
    obtain ⟨hne, hwifi, hdb⟩ := hiff.mp hw
    obtain ⟨h1, h2⟩ := hflags hne
    exact ⟨h1.trans hwifi, h2.trans hdb⟩
  · simp only [loop, hmode]
    rw [publishAttempts_loopMeasurement]
    split <;> omega

/-- C5 on three sample cycles: a good reading with Wi-Fi down is not written, a good reading
with both probes up is, and a zero reading with both probes up is not. -/
theorem publish_iff_reading_and_uplinks_witness :
    (loop ⟨true, 0, 0, true, true, MODE_MEASUREMENT⟩ 300000
        ⟨450, 21, 1, false, true, true⟩).2.any isWritePoint = false
    ∧ (loop ⟨true, 0, 0, false, false, MODE_MEASUREMENT⟩ 300000
        ⟨450, 21, 1, true, true, true⟩).2.any isWritePoint = true
    ∧ ((loop ⟨true, 0, 0, true, true, MODE_MEASUREMENT⟩ 300000
        ⟨0, 21, 1, true, true, true⟩).2.any isWritePoint = true
        ↔ (0 : Int) ≠ 0 ∧ true = true ∧ true = true) :=
  ⟨rfl, rfl,
   (publish_iff_reading_and_uplinks ⟨true, 0, 0, true, true, MODE_MEASUREMENT⟩ 300000
      ⟨0, 21, 1, true, true, true⟩ rfl (by decide)).1⟩

/-- C8: in every execution of loop iterations and button interrupts, from every state, between
any two events that send the zero-calibration command there is a loop iteration that finds
the device in ZeroCalibration and leaves it in Measurement; presses made while the device is
in ZeroCalibration cause no second send. -/
theorem zero_command_once_per_entry (s0 : State) (pre mid : List Event) (e1 e2 : Event)
    (h1 : sendsZero (stateAfter s0 pre) e1 = true)
    (h2 : sendsZero (stateAfter s0 (pre ++ e1 :: mid)) e2 = true) :
    ∃ mid1 e mid2, mid = mid1 ++ e :: mid2
      ∧ leavesZeroCalibration (stateAfter s0 (pre ++ e1 :: mid1)) e = true := by
  have hoff := (sendsZero_disarms _ e1 h1).2
  rw [stateAfter_append] at h2
  obtain ⟨m1, e, m2, hsplit, hleave⟩ :=
    send_after_disarmed mid (step (stateAfter s0 pre) e1).1 e2 hoff h2
  refine ⟨m1, e, m2, hsplit, ?_⟩
  rw [stateAfter_append]
  exact hleave

/-- C8 on an execution with two sends: a press during warm-up, the send, two further presses
and iterations without a send, the exit at the end of warm-up, and (the counter having
wrapped) a second press and send. -/
theorem zero_command_once_per_entry_witness :
    sendsZero (stateAfter (bootState 0) [Event.button 10])
        (Event.iteration 11 ⟨450, 21, 1, true, true, true⟩) = true
    ∧ sendsZero (stateAfter (bootState 0)
        [Event.button 10, Event.iteration 11 ⟨450, 21, 1, true, true, true⟩, Event.button 20])
        (Event.iteration 21 ⟨450, 21, 1, true, true, true⟩) = false
    ∧ ∃ mid1 e mid2,
        [Event.button 20, Event.iteration 21 ⟨450, 21, 1, true, true, true⟩,
         Event.iteration 180000 ⟨450, 21, 1, true, true, true⟩, Event.button 4] = mid1 ++ e :: mid2
        ∧ leavesZeroCalibration (stateAfter (bootState 0)
            ([Event.button 10] ++ Event.iteration 11 ⟨450, 21, 1, true, true, true⟩ :: mid1)) e
          = true :=
  ⟨rfl, rfl,
   zero_command_once_per_entry (bootState 0) [Event.button 10]
     [Event.button 20, Event.iteration 21 ⟨450, 21, 1, true, true, true⟩,
      Event.iteration 180000 ⟨450, 21, 1, true, true, true⟩, Event.button 4]
     (Event.iteration 11 ⟨450, 21, 1, true, true, true⟩)
     (Event.iteration 5 ⟨450, 21, 1, true, true, true⟩) rfl rfl⟩

/-! ## Sample cadence -/

/-- C7 as stated fails at the wrap: with the loop seeing every counter value once, no faults,
and the device in Measurement mode, the window of `CONF_MEASUREMENT_INTERVALL_MS` consecutive
milliseconds that starts at counter value 4 294 800 000 holds two sample cycles and two
publish attempts (at 4 294 800 000 and, after the wrap, at 0), not one. -/
theorem cadence_window_at_wrap_has_two :
    sampleCycles (traceOf ⟨true, 0, 0, true, true, MODE_MEASUREMENT⟩
        (window (fun _ => steadyReadings) 4294800000
          CONF_MEASUREMENT_INTERVALL_MS)) = 2
    ∧ publishAttempts (traceOf ⟨true, 0, 0, true, true, MODE_MEASUREMENT⟩
        (window (fun _ => steadyReadings) 4294800000
          CONF_MEASUREMENT_INTERVALL_MS)) = 2 := by
  constructor
  · rw [sampleCycles_window _ _ _ _ rfl, boundariesIn_at_wrap]
  · rw [publishAttempts_window _ _ _ _ rfl (fun _ => noFault_steadyReadings),
      boundariesIn_at_wrap]

/-- C7 as amended: in Measurement mode without faults, with the loop seeing every value of
the wrapping counter once, an iteration performs a sample cycle, and with it one publish
attempt, exactly when its clock value is a multiple of `CONF_MEASUREMENT_INTERVALL_MS`; a
window of that many consecutive milliseconds that does not reach the wrap holds exactly one
sample cycle and one publish attempt; and every such window, the wrap included, holds at
least one and at most two. -/
theorem sample_cadence (s : State) (env : Nat → Readings) (w : Nat)
    (hmode : s.currentApplicationMode = MODE_MEASUREMENT)
    (henv : ∀ i, noFault (env i)) (hw : w < CLOCK_PERIOD) :
    (∀ now r, sampleCycles (loop s now r).2
        = if now % CONF_MEASUREMENT_INTERVALL_MS = 0 then 1 else 0)
    ∧ (∀ now r, noFault r → publishAttempts (loop s now r).2
        = if now % CONF_MEASUREMENT_INTERVALL_MS = 0 then 1 else 0)
    ∧ (w + CONF_MEASUREMENT_INTERVALL_MS ≤ CLOCK_PERIOD →
        sampleCycles (traceOf s (window env w CONF_MEASUREMENT_INTERVALL_MS)) = 1
        ∧ publishAttempts (traceOf s (window env w CONF_MEASUREMENT_INTERVALL_MS)) = 1)
    ∧ 1 ≤ sampleCycles (traceOf s (window env w CONF_MEASUREMENT_INTERVALL_MS))
    ∧ sampleCycles (traceOf s (window env w CONF_MEASUREMENT_INTERVALL_MS)) ≤ 2
    ∧ publishAttempts (traceOf s (window env w CONF_MEASUREMENT_INTERVALL_MS))
        = sampleCycles (traceOf s (window env w CONF_MEASUREMENT_INTERVALL_MS)) := by
  have hs := sampleCycles_window s env w CONF_MEASUREMENT_INTERVALL_MS hmode
  have hp := publishAttempts_window s env w CONF_MEASUREMENT_INTERVALL_MS hmode henv
  have hb := boundariesIn_bounds w hw
  refine ⟨?_, ?_, ?_, ?_, ?_, ?_⟩
  · intro now r
    simp only [loop, hmode]
    exact sampleCycles_loopMeasurement s now r
  · intro now r hr
    obtain ⟨h1, h2, h3⟩ := hr
    simp only [loop, hmode]
    rw [publishAttempts_loopMeasurement]
    simp [h1, h2, h3]
  · intro hnowrap
    rw [hs, hp, boundariesIn_no_wrap w hnowrap]
    exact ⟨rfl, rfl⟩
  · rw [hs]; exact hb.1
  · rw [hs]; exact hb.2
  · rw [hs, hp]

/-- C7 as amended, on the window that starts 1000 ms after a boundary: one sample cycle and
one publish attempt. -/
theorem sample_cadence_witness :
    sampleCycles (traceOf ⟨true, 0, 0, true, true, MODE_MEASUREMENT⟩
        (window (fun _ => steadyReadings) 1000
          CONF_MEASUREMENT_INTERVALL_MS)) = 1
    ∧ publishAttempts (traceOf ⟨true, 0, 0, true, true, MODE_MEASUREMENT⟩
        (window (fun _ => steadyReadings) 1000
          CONF_MEASUREMENT_INTERVALL_MS)) = 1 :=
  (sample_cadence ⟨true, 0, 0, true, true, MODE_MEASUREMENT⟩
    (fun _ => steadyReadings) 1000 rfl
    (fun _ => noFault_steadyReadings) (by decide)).2.2.1 (by decide)

end CO2Ampel
